import Mathlib

/-
  Verification of the phiacta-verify pipeline against its specification.

  This file gives a shallow embedding, in Lean 4, of the parts of the
  phiacta_verify Python code base that the checked claims are about:
  the security policy (sandbox/security.py), the container sandbox set-up
  phase (sandbox/container.py), the worker pipeline (worker.py), the
  result signer (signing/ed25519.py), and the comparator library
  (comparators/*.py).  Each definition is translated directly from the
  corresponding source function; modelling conventions:

  * Python byte strings are `List Nat` (one entry per byte).
  * Python `float` is `PyFloat` below: NaN, signed infinity, or an exact
    rational.  Finite float arithmetic is modelled exactly over ℚ
    (IEEE-754 rounding is not modelled; none of the checked claims
    depends on rounding of finite values).
  * Python dicts that are built in iteration order are association lists.
  * External library primitives (Ed25519, UTF-8 decoding, SHA-256,
    the number-extraction front end) are parameters of the definitions
    that call them, so theorems quantify over them.
-/

/-! ## Python float model -/

/-- Model of a Python `float`: NaN, a signed infinity, or a finite value
represented as an exact rational. -/
inductive PyFloat where
  | nan : PyFloat
  | inf : Bool → PyFloat
  | fin : ℚ → PyFloat
  deriving DecidableEq, Repr

namespace PyFloat

def isnan : PyFloat → Bool
  | nan => true
  | _ => false

def isinf : PyFloat → Bool
  | inf _ => true
  | _ => false

def isfinite : PyFloat → Bool
  | fin _ => true
  | _ => false

def neg : PyFloat → PyFloat
  | nan => nan
  | inf s => inf (!s)
  | fin q => fin (-q)

def pabs : PyFloat → PyFloat
  | nan => nan
  | inf _ => inf true
  | fin q => fin |q|

def add : PyFloat → PyFloat → PyFloat
  | nan, _ => nan
  | _, nan => nan
  | inf s, inf t => if s = t then inf s else nan
  | inf s, fin _ => inf s
  | fin _, inf t => inf t
  | fin a, fin b => fin (a + b)

def sub (a b : PyFloat) : PyFloat := add a (neg b)

def mul : PyFloat → PyFloat → PyFloat
  | nan, _ => nan
  | _, nan => nan
  | inf s, inf t => inf (s = t)
  | inf s, fin q => if q = 0 then nan else inf (decide (s = decide (0 < q)))
  | fin q, inf t => if q = 0 then nan else inf (decide (t = decide (0 < q)))
  | fin a, fin b => fin (a * b)

/-- Python float division.  Division by zero raises in Python; every call
site in the embedded code guards the denominator, so that case is mapped
to NaN here and is never reached. -/
def div : PyFloat → PyFloat → PyFloat
  | nan, _ => nan
  | _, nan => nan
  | inf _, inf _ => nan
  | inf s, fin q => if q = 0 then nan else inf (decide (s = decide (0 < q)))
  | fin _, inf _ => fin 0
  | fin a, fin b => if b = 0 then nan else fin (a / b)

/-- Python `==` on floats: NaN compares unequal to everything. -/
def peq : PyFloat → PyFloat → Bool
  | nan, _ => false
  | _, nan => false
  | inf s, inf t => s = t
  | inf _, fin _ => false
  | fin _, inf _ => false
  | fin a, fin b => a = b

/-- Python `<` on floats: any comparison with NaN is false. -/
def plt : PyFloat → PyFloat → Bool
  | nan, _ => false
  | _, nan => false
  | inf s, inf t => !s && t
  | inf s, fin _ => !s
  | fin _, inf t => t
  | fin a, fin b => a < b

def ple (a b : PyFloat) : Bool := plt a b || peq a b

/-- Python `max(a, b)`: keeps `a` and replaces it only when `b > a`. -/
def pymax (a b : PyFloat) : PyFloat := if plt a b then b else a

/-- Python `min(a, b)`: keeps `a` and replaces it only when `b < a`. -/
def pymin (a b : PyFloat) : PyFloat := if plt b a then b else a

end PyFloat

/-! ## Enumerations (models/enums.py) -/

/-- Hierarchical verification levels (`VerificationLevel` in enums.py). -/
inductive VerificationLevel where
  | L0_UNVERIFIED
  | L1_SYNTAX_VERIFIED
  | L2_EXECUTION_VERIFIED
  | L3_OUTPUT_VERIFIED_DETERMINISTIC
  | L4_OUTPUT_VERIFIED_STATISTICAL
  | L5_INDEPENDENTLY_REPLICATED
  | L6_FORMALLY_PROVEN
  deriving DecidableEq, Repr

/-- The string `value` of each `VerificationLevel` member (a `StrEnum`). -/
def VerificationLevel.value : VerificationLevel → String
  | .L0_UNVERIFIED => "L0_UNVERIFIED"
  | .L1_SYNTAX_VERIFIED => "L1_SYNTAX_VERIFIED"
  | .L2_EXECUTION_VERIFIED => "L2_EXECUTION_VERIFIED"
  | .L3_OUTPUT_VERIFIED_DETERMINISTIC => "L3_OUTPUT_VERIFIED_DETERMINISTIC"
  | .L4_OUTPUT_VERIFIED_STATISTICAL => "L4_OUTPUT_VERIFIED_STATISTICAL"
  | .L5_INDEPENDENTLY_REPLICATED => "L5_INDEPENDENTLY_REPLICATED"
  | .L6_FORMALLY_PROVEN => "L6_FORMALLY_PROVEN"

/-- Supported execution environments (`RunnerType` in enums.py). -/
inductive RunnerType where
  | PYTHON_SCRIPT
  | PYTHON_NOTEBOOK
  | R_SCRIPT
  | R_MARKDOWN
  | JULIA
  | LEAN4
  | SYMPY
  | SAGE
  deriving DecidableEq, Repr

/-- Job lifecycle states (`JobStatus` in enums.py). -/
inductive JobStatus where
  | PENDING
  | QUEUED
  | RUNNING
  | COMPLETED
  | FAILED
  | TIMED_OUT
  | CANCELLED
  deriving DecidableEq, Repr

/-- Output comparison methods (`ComparisonMethod` in enums.py). -/
inductive ComparisonMethod where
  | EXACT
  | NUMERICAL_TOLERANCE
  | STATISTICAL
  | PERCEPTUAL_HASH
  deriving DecidableEq, Repr

/-! ## Security policy (sandbox/security.py) -/

/-- The field values of a `SecurityPolicy` dataclass instance, with the
source defaults.  Validation performed by `__post_init__` is modelled
separately by `mkSecurityPolicy`, since in Python a constructor call
either raises or yields exactly these fields. -/
structure SecurityPolicy where
  network_disabled : Bool := true
  read_only_rootfs : Bool := true
  memory_limit_mb : Int := 2048
  cpu_period : Int := 100000
  cpu_quota : Int := 100000
  pids_limit : Int := 64
  tmpfs_size_mb : Int := 256
  timeout_seconds : Int := 120
  no_new_privileges : Bool := true
  cap_drop : List String := ["ALL"]
  deriving DecidableEq, Repr

/-- `SecurityPolicy(...)` construction: runs the `__post_init__` checks in
source order and either raises `ValueError` (modelled as `Except.error`
with the source message) or returns the instance unchanged. -/
def mkSecurityPolicy (p : SecurityPolicy) : Except String SecurityPolicy :=
  if p.network_disabled = false then
    .error ("SecurityPolicy.network_disabled MUST be True. " ++
      "Sandboxed containers are never allowed network access.")
  else if p.memory_limit_mb ≤ 0 then
    .error "memory_limit_mb must be a positive integer."
  else if p.timeout_seconds ≤ 0 then
    .error "timeout_seconds must be a positive integer."
  else if p.pids_limit ≤ 0 then
    .error "pids_limit must be a positive integer."
  else if p.cpu_period ≤ 0 then
    .error "cpu_period must be a positive integer."
  else if p.cpu_quota ≤ 0 then
    .error "cpu_quota must be a positive integer."
  else if p.tmpfs_size_mb ≤ 0 then
    .error "tmpfs_size_mb must be a positive integer."
  else .ok p

/-- The dictionary returned by `SecurityPolicy.to_container_config`. -/
structure ContainerConfig where
  network_mode : String
  read_only : Bool
  mem_limit : String
  memswap_limit : String
  cpu_period : Int
  cpu_quota : Int
  pids_limit : Int
  security_opt : List String
  cap_drop : List String
  tmpfs : List (String × String)
  deriving DecidableEq, Repr

/-- `SecurityPolicy.to_container_config`, translated field by field. -/
def SecurityPolicy.to_container_config (p : SecurityPolicy) : ContainerConfig :=
  { network_mode := "none"
    read_only := p.read_only_rootfs
    mem_limit := toString p.memory_limit_mb ++ "m"
    memswap_limit := toString p.memory_limit_mb ++ "m"
    cpu_period := p.cpu_period
    cpu_quota := p.cpu_quota
    pids_limit := p.pids_limit
    security_opt := if p.no_new_privileges then ["no-new-privileges"] else []
    cap_drop := p.cap_drop
    tmpfs := [("/tmp", "size=" ++ toString p.tmpfs_size_mb ++ "m,noexec,nosuid")] }

/-- C4 counterexample: the claim "every successfully constructed policy's
container config drops all capabilities" is false, because `cap_drop` is a
constructor argument that `__post_init__` never validates: a policy built
with `cap_drop=[]` constructs successfully and its config drops nothing. -/
theorem c4_counterexample :
    ¬ (∀ p q : SecurityPolicy, mkSecurityPolicy p = Except.ok q →
        q.to_container_config.cap_drop = ["ALL"]) := by
  intro h
  have h2 := h { cap_drop := [] } { cap_drop := [] } rfl
  simp [SecurityPolicy.to_container_config] at h2

/-- C4 (amended): constructing a `SecurityPolicy` raises exactly when some
numeric limit is not strictly positive or network access is enabled; every
successfully constructed policy's config has `network_mode = "none"`, and
its capability-drop list equals the policy's `cap_drop` field, which
defaults to `["ALL"]` — so a policy that keeps the default drops all
capabilities. -/
theorem c4_policy_validation (p : SecurityPolicy) :
    ((mkSecurityPolicy p).isOk = true ↔
      (p.network_disabled = true ∧ 0 < p.memory_limit_mb ∧ 0 < p.timeout_seconds ∧
       0 < p.pids_limit ∧ 0 < p.cpu_period ∧ 0 < p.cpu_quota ∧ 0 < p.tmpfs_size_mb)) ∧
    (∀ q, mkSecurityPolicy p = Except.ok q →
      q.to_container_config.network_mode = "none" ∧
      q.to_container_config.cap_drop = p.cap_drop ∧
      (p.cap_drop = ["ALL"] → q.to_container_config.cap_drop = ["ALL"])) := by
  constructor
  · unfold mkSecurityPolicy
    split <;> rename_i h1
    · simp [Except.isOk, Except.toBool, h1]
    · split <;> rename_i h2
      · simp only [Except.isOk, Except.toBool, Bool.false_eq_true, false_iff]
        rintro ⟨-, hm, -⟩; omega
      · split <;> rename_i h3
        · simp only [Except.isOk, Except.toBool, Bool.false_eq_true, false_iff]
          rintro ⟨-, -, ht, -⟩; omega
        · split <;> rename_i h4
          · simp only [Except.isOk, Except.toBool, Bool.false_eq_true, false_iff]
            rintro ⟨-, -, -, hp, -⟩; omega
          · split <;> rename_i h5
            · simp only [Except.isOk, Except.toBool, Bool.false_eq_true, false_iff]
              rintro ⟨-, -, -, -, hc, -⟩; omega
            · split <;> rename_i h6
              · simp only [Except.isOk, Except.toBool, Bool.false_eq_true, false_iff]
                rintro ⟨-, -, -, -, -, hq, -⟩; omega
              · split <;> rename_i h7
                · simp only [Except.isOk, Except.toBool, Bool.false_eq_true, false_iff]
                  rintro ⟨-, -, -, -, -, -, hs⟩; omega
                · simp only [Except.isOk, Except.toBool, true_iff]
                  refine ⟨by simpa using h1, by omega, by omega, by omega, by omega,
                    by omega, by omega⟩
  · intro q hq
    have hpq : p = q := by
      unfold mkSecurityPolicy at hq
      repeat' split at hq
      all_goals simp_all
    subst hpq
    exact ⟨rfl, rfl, fun h => by simp [SecurityPolicy.to_container_config, h]⟩

/-- C4 witness: the amended theorem applied at the default policy. -/
theorem c4_policy_validation_witness :
    (SecurityPolicy.to_container_config {}).network_mode = "none" ∧
    (SecurityPolicy.to_container_config {}).cap_drop = ["ALL"] := by
  have h := (c4_policy_validation {}).2 {} rfl
  exact ⟨h.1, h.2.2 rfl⟩

/-- C6: evaluating `to_container_config` on the default policy shows the
code mounts a single tmpfs, at `/tmp`, carrying the `noexec` flag, and
mounts nothing at `/output` — contradicting both the claim and the
repository's own tests (`test_tmpfs_does_not_have_noexec`,
`test_output_tmpfs_has_noexec` in tests/test_sandbox.py). -/
theorem c6_tmpfs_config_evaluated :
    (mkSecurityPolicy {}).map (fun p => p.to_container_config.tmpfs) =
      Except.ok [("/tmp", "size=256m,noexec,nosuid")] := rfl

/-! ## Comparator interface (comparators/base.py) -/

/-- A JSON-like Python value, used for the `details` dictionaries that
comparators attach to their results. -/
inductive PyVal where
  | str : String → PyVal
  | num : PyFloat → PyVal
  | int : Int → PyVal
  | bool : Bool → PyVal
  | list : List PyVal → PyVal
  | dict : List (String × PyVal) → PyVal

/-- Python `dict` lookup on an association list (keys are unique at every
call site, so first-match lookup agrees with Python's). -/
def dictGet (d : List (String × α)) (k : String) : Option α :=
  (d.find? (fun kv => kv.1 = k)).map (·.2)

/-- `ComparisonResult` from comparators/base.py. -/
structure ComparisonResult where
  matched : Bool
  method : ComparisonMethod
  score : PyFloat
  details : List (String × PyVal) := []

/-- The keyword arguments ever passed to or read by a comparator's
`compare` method: the worker forwards `tolerance`, and the comparators
read `rtol`, `atol`, `significance_level`, and `threshold`.  A field is
`none` when the keyword is absent. -/
structure CompareOpts where
  tolerance : Option PyFloat := none
  rtol : Option PyFloat := none
  atol : Option PyFloat := none
  significance_level : Option PyFloat := none
  threshold : Option PyFloat := none
  deriving DecidableEq, Repr

/-! ## Job and result data model (models/job.py, models/result.py) -/

/-- `ResourceLimits` from models/job.py (all fields validated `gt=0` by
pydantic; the defaults are the source defaults). -/
structure ResourceLimits where
  cpu_seconds : Int := 120
  memory_mb : Int := 2048
  disk_mb : Int := 256
  timeout_seconds : Int := 120
  pids_limit : Int := 64
  deriving DecidableEq, Repr

/-- `ExpectedOutput` from models/job.py.  Byte payloads are `List Nat`. -/
structure ExpectedOutput where
  name : String
  content : Option (List Nat) := none
  content_hash : Option String := none
  comparison_method : ComparisonMethod := .EXACT
  tolerance : Option PyFloat := none
  deriving DecidableEq, Repr

/-- The free-form `environment_spec` dict, modelled through the only key
the code ever reads: the `env` sub-mapping of process environment
variables.  `env = none` models a spec dict without an `"env"` key. -/
structure EnvironmentSpec where
  env : Option (List (String × String)) := none
  deriving DecidableEq, Repr

/-- `VerificationJob` from models/job.py.  UUIDs and timestamps are
carried as their canonical text. -/
structure VerificationJob where
  id : String
  claim_id : String
  runner_type : RunnerType
  code_hash : String
  code_content : String
  environment_spec : Option EnvironmentSpec := none
  expected_outputs : Option (List ExpectedOutput) := none
  resource_limits : ResourceLimits := {}
  status : JobStatus := .PENDING
  created_at : String := ""
  updated_at : String := ""
  submitted_by : String := ""
  deriving DecidableEq, Repr

/-- `OutputComparison` from models/result.py. -/
structure OutputComparison where
  name : String
  matched : Bool
  method : ComparisonMethod
  score : PyFloat
  details : List (String × PyVal) := []

/-- `VerificationResult` from models/result.py (the run-independent
`id` default-factory field is omitted; nothing the claims mention reads
it). -/
structure VerificationResult where
  job_id : String
  claim_id : String
  verification_level : VerificationLevel
  passed : Bool
  code_hash : String
  signature : String := ""
  execution_time_seconds : PyFloat
  outputs_matched : Option (List OutputComparison) := none
  stdout : Option String := none
  stderr : Option String := none
  error_message : Option String := none
  runner_image : String
  created_at : String := ""

/-! ## Sandbox result and runner output (sandbox/container.py, runners/base.py) -/

/-- `SandboxResult` from sandbox/container.py. -/
structure SandboxResult where
  exit_code : Int
  stdout : String
  stderr : String
  output_files : List (String × List Nat) := []
  execution_time_seconds : PyFloat := .fin 0
  timed_out : Bool := false
  deriving DecidableEq, Repr

/-- `RunnerOutput` from runners/base.py. -/
structure RunnerOutput where
  outputs : List (String × List Nat)
  logs : String
  errors : String
  verification_level : VerificationLevel
  success : Bool
  deriving DecidableEq, Repr

/-- `PreparedExecution` from runners/base.py. -/
structure PreparedExecution where
  image : String
  command : List String
  code_files : List (String × String)
  data_files : Option (List (String × List Nat)) := none
  env_vars : List (String × String) := []
  deriving DecidableEq, Repr

/-! ## Worker pipeline, steps 5 and 6 (worker.py `process_job`) -/

/-- A nonempty list is not `isEmpty`; Python's list truthiness. -/
theorem ne_nil_isEmpty_false {α} {l : List α} (h : l ≠ []) : l.isEmpty = false := by
  cases l with
  | nil => exact absurd rfl h
  | cons a t => rfl

/-- Worker step 5: build the per-artifact comparison list.  The comparator
dispatch `get_comparator(method).compare` is the `compare` parameter; the
worker forwards exactly one keyword, `tolerance=expected.tolerance`. -/
def processJobComparisons
    (compare : ComparisonMethod → List Nat → List Nat → CompareOpts → ComparisonResult)
    (expected_outputs : Option (List ExpectedOutput))
    (runner_output : RunnerOutput) : List OutputComparison :=
  if expected_outputs.getD [] ≠ [] ∧ runner_output.success then
    (expected_outputs.getD []).map (fun expected =>
      match dictGet runner_output.outputs expected.name with
      | none =>
          { name := expected.name, matched := false,
            method := expected.comparison_method, score := .fin 0,
            details := [("error", .str "output not found")] }
      | some actual_data =>
          let expected_data := expected.content.getD []
          let r := compare expected.comparison_method expected_data actual_data
            { tolerance := expected.tolerance }
          { name := expected.name, matched := r.matched, method := r.method,
            score := r.score, details := r.details })
  else []

/-- Worker step 6: determine verification level and pass/fail, translated
branch by branch from `process_job`. -/
def processJobClassification (sandbox_result : SandboxResult)
    (runner_output : RunnerOutput)
    (output_comparisons : List OutputComparison) : VerificationLevel × Bool :=
  if sandbox_result.timed_out then
    (.L0_UNVERIFIED, false)
  else if runner_output.success = false then
    (if sandbox_result.exit_code ≠ 0 then VerificationLevel.L1_SYNTAX_VERIFIED
     else VerificationLevel.L0_UNVERIFIED, false)
  else if output_comparisons.isEmpty = false ∧ output_comparisons.all (·.matched) then
    (runner_output.verification_level, true)
  else if output_comparisons.isEmpty = false then
    (.L2_EXECUTION_VERIFIED, false)
  else
    (runner_output.verification_level, runner_output.success)

/-- The level/passed verdict `process_job` assigns to a job, given the
sandbox result and the parsed runner output. -/
def processJobVerdict
    (compare : ComparisonMethod → List Nat → List Nat → CompareOpts → ComparisonResult)
    (job : VerificationJob) (sandbox_result : SandboxResult)
    (runner_output : RunnerOutput) : VerificationLevel × Bool :=
  processJobClassification sandbox_result runner_output
    (processJobComparisons compare job.expected_outputs runner_output)

/-- C1: the worker's classification applies the first matching rule of the
cascade — timeout forces L0/failed; runner failure gives L1 on non-zero
exit and L0 on zero exit; comparisons all matched give the runner's
claimed level and passed; any mismatching comparison gives L2/failed; no
comparisons defer to the runner's level and success flag. -/
theorem c1_worker_classification
    (compare : ComparisonMethod → List Nat → List Nat → CompareOpts → ComparisonResult)
    (job : VerificationJob) (sr : SandboxResult) (ro : RunnerOutput) :
    (sr.timed_out = true →
      processJobVerdict compare job sr ro = (.L0_UNVERIFIED, false)) ∧
    (sr.timed_out = false → ro.success = false → sr.exit_code ≠ 0 →
      processJobVerdict compare job sr ro = (.L1_SYNTAX_VERIFIED, false)) ∧
    (sr.timed_out = false → ro.success = false → sr.exit_code = 0 →
      processJobVerdict compare job sr ro = (.L0_UNVERIFIED, false)) ∧
    (sr.timed_out = false → ro.success = true →
      processJobComparisons compare job.expected_outputs ro ≠ [] →
      (∀ c ∈ processJobComparisons compare job.expected_outputs ro, c.matched = true) →
      processJobVerdict compare job sr ro = (ro.verification_level, true)) ∧
    (sr.timed_out = false → ro.success = true →
      (∃ c ∈ processJobComparisons compare job.expected_outputs ro, c.matched = false) →
      processJobVerdict compare job sr ro = (.L2_EXECUTION_VERIFIED, false)) ∧
    (sr.timed_out = false → ro.success = true →
      processJobComparisons compare job.expected_outputs ro = [] →
      processJobVerdict compare job sr ro = (ro.verification_level, ro.success)) := by
  refine ⟨fun ht => ?_, fun ht hs hx => ?_, fun ht hs hx => ?_,
    fun ht hs hne hall => ?_, fun ht hs hmis => ?_, fun ht hs hemp => ?_⟩
  · simp [processJobVerdict, processJobClassification, ht]
  · simp [processJobVerdict, processJobClassification, ht, hs, hx]
  · simp [processJobVerdict, processJobClassification, ht, hs, hx]
  · have hb : (processJobComparisons compare job.expected_outputs ro).all (·.matched) = true := by
      simpa [List.all_eq_true] using hall
    simp [processJobVerdict, processJobClassification, ht, hs, ne_nil_isEmpty_false hne, hb]
  · obtain ⟨c, hc, hcm⟩ := hmis
    have hne : processJobComparisons compare job.expected_outputs ro ≠ [] := by
      intro h; rw [h] at hc; exact absurd hc (List.not_mem_nil c)
    have hb : (processJobComparisons compare job.expected_outputs ro).all (·.matched) = false := by
      simp only [List.all_eq_false]
      exact ⟨c, hc, by simp [hcm]⟩
    simp [processJobVerdict, processJobClassification, ht, hs, ne_nil_isEmpty_false hne, hb]
  · simp [processJobVerdict, processJobClassification, ht, hs, hemp, List.isEmpty]

/-- C1 witness: the classification theorem applied to a concrete job
whose sandbox execution timed out. -/
theorem c1_worker_classification_witness :
    processJobVerdict (fun _ _ _ _ => { matched := true, method := .EXACT, score := .fin 1 })
      { id := "j1", claim_id := "c1", runner_type := .PYTHON_SCRIPT,
        code_hash := "h", code_content := "print(1)" }
      { exit_code := -1, stdout := "", stderr := "", timed_out := true }
      { outputs := [], logs := "", errors := "",
        verification_level := .L2_EXECUTION_VERIFIED, success := false } =
      (.L0_UNVERIFIED, false) :=
  (c1_worker_classification _ _ _ _).1 rfl

/-! ## Container sandbox set-up phase (sandbox/container.py)

`ContainerSandbox.run` is embedded up to and including container
creation: the checked claims (C5, C10) are about the allow-list gate,
temp-directory creation, environment sanitization, and the configuration
the container is created with.  Creation of ephemeral resources is
recorded as an explicit event trace. -/

/-- `_ALLOWED_IMAGES` from sandbox/container.py (a frozenset; only
membership is ever used). -/
def _ALLOWED_IMAGES : List String :=
  [ "phiacta-verify-runner-python:latest"
  , "phiacta-verify-runner-r:latest"
  , "phiacta-verify-runner-julia:latest"
  , "phiacta-verify-runner-lean4:latest"
  , "phiacta-verify-runner-symbolic:latest" ]

/-- `_BLOCKED_ENV_VARS` from sandbox/container.py. -/
def _BLOCKED_ENV_VARS : List String :=
  [ "LD_PRELOAD", "LD_LIBRARY_PATH", "PYTHONSTARTUP", "PYTHONPATH"
  , "PYTHONINSPECT", "PYTHONBREAKPOINT", "RUBYOPT", "PERL5OPT"
  , "NODE_OPTIONS", "JAVA_TOOL_OPTIONS", "R_PROFILE", "R_PROFILE_USER"
  , "R_ENVIRON", "R_ENVIRON_USER", "JULIA_LOAD_PATH", "JULIA_DEPOT_PATH"
  , "BASH_ENV", "ENV", "CDPATH", "GLOBIGNORE", "PATH", "HOME" ]

/-- Python `str.upper`, restricted to the ASCII range that the
environment-variable names use (`String.toUpper` itself does not reduce
in the kernel). -/
def pyToUpper (s : String) : String := String.mk (s.data.map Char.toUpper)

/-- Python `str.split(sep)` for a one-character separator (hand-rolled so
that it reduces in the kernel; agrees with Python's keep-empty-fields
split). -/
def pySplitAux (sep : Char) (acc : List Char) : List Char → List String
  | [] => [String.mk acc.reverse]
  | c :: rest =>
      if c = sep then String.mk acc.reverse :: pySplitAux sep [] rest
      else pySplitAux sep (c :: acc) rest

def pySplit (sep : Char) (s : String) : List String := pySplitAux sep [] s.data

/-- The path-traversal test applied to every file-map key:
`relative_path.startswith("/") or ".." in relative_path.split("/")`. -/
def hasPathTraversal (p : String) : Bool :=
  (match p.data with | [] => false | c :: _ => c = '/') || (pySplit '/' p).contains ".."

/-- Ephemeral resources created by the sandbox set-up phase, in order. -/
inductive SandboxEvent where
  | tempDirCreated (tag : String)
  | containerCreated (image : String) (env : List (String × String))
  deriving DecidableEq, Repr

/-- The arguments the sandbox hands to `containers.create` (step 5 of
`ContainerSandbox.run`). -/
structure SandboxCreate where
  image : String
  command : List String
  working_dir : String
  environment : List (String × String)
  host_config : ContainerConfig
  binds : List (String × String × String)
  deriving DecidableEq, Repr

/-- Step 4 of `ContainerSandbox.run`: drop every variable whose
upper-cased name is on the blocklist; pass the rest through verbatim.
`env_vars = none` models the parameter's default `None`. -/
def containerSafeEnv (env_vars : Option (List (String × String))) :
    List (String × String) :=
  match env_vars with
  | none => []
  | some evs => evs.filter (fun kv => _BLOCKED_ENV_VARS.contains (pyToUpper kv.1) = false)

/-- `ContainerSandbox.run` through container creation, translated from
sandbox/container.py: allow-list gate, code/data temp directories with
per-key path-traversal checks, bind mounts, environment sanitization,
and the `containers.create` call.  Returns the event trace alongside
either the raised error or the creation record. -/
def ContainerSandbox.runSetup (image : String) (command : List String)
    (code_files : List (String × String))
    (data_files : Option (List (String × List Nat)))
    (policy : Option SecurityPolicy)
    (env_vars : Option (List (String × String))) :
    List SandboxEvent × Except String SandboxCreate :=
  if _ALLOWED_IMAGES.contains image = false then
    ([], .error ("Image \x27" ++ image ++ "\x27 is not in the allowed image list. " ++
      "Allowed: [\x27phiacta-verify-runner-julia:latest\x27, " ++
      "\x27phiacta-verify-runner-lean4:latest\x27, " ++
      "\x27phiacta-verify-runner-python:latest\x27, " ++
      "\x27phiacta-verify-runner-r:latest\x27, " ++
      "\x27phiacta-verify-runner-symbolic:latest\x27]"))
  else
    let events0 := [SandboxEvent.tempDirCreated "phiacta_code_"]
    match code_files.find? (fun kv => hasPathTraversal kv.1) with
    | some kv => (events0, .error ("Path traversal in code_files key: \x27" ++ kv.1 ++ "\x27"))
    | none =>
      let hasData := (data_files.getD []).isEmpty = false
      let events1 := events0 ++
        (if hasData then [SandboxEvent.tempDirCreated "phiacta_data_"] else [])
      match (if hasData then (data_files.getD []).find? (fun kv => hasPathTraversal kv.1)
             else none) with
      | some kv => (events1, .error ("Path traversal in data_files key: \x27" ++ kv.1 ++ "\x27"))
      | none =>
        let binds := [("phiacta_code_", "/code", "ro")] ++
          (if hasData then [("phiacta_data_", "/data", "ro")] else [])
        let safe_env := containerSafeEnv env_vars
        (events1 ++ [SandboxEvent.containerCreated image safe_env],
         .ok { image := image, command := command, working_dir := "/code",
               environment := safe_env,
               host_config := (policy.getD {}).to_container_config,
               binds := binds })

/-! ## Runners (runners/*.py) -/

/-- A runner's two methods (`BaseRunner` interface). -/
structure Runner where
  prepare : VerificationJob → PreparedExecution
  parse_output : Int → String → String → List (String × List Nat) → RunnerOutput

/-- Shared by every `prepare`: `env_vars` from the job's
`environment_spec["env"]` sub-mapping, empty otherwise. -/
def runnerEnvVars (job : VerificationJob) : List (String × String) :=
  match job.environment_spec with
  | some spec =>
      match spec.env with
      | some e => e
      | none => []
  | none => []

/-- The `_NOTEBOOK_WRAPPER` script from runners/python_runner.py. -/
def _NOTEBOOK_WRAPPER : String :=
  "\"\"\"Wrapper that converts an .ipynb notebook to .py and executes it.\"\"\"\nimport subprocess\nimport sys\n\n# Convert notebook to plain Python script.\nconvert_result = subprocess.run(\n    [\n        sys.executable, \"-m\", \"jupyter\", \"nbconvert\",\n        \"--to\", \"script\",\n        \"--output-dir\", \"/code\",\n        \"/code/notebook.ipynb\",\n    ],\n    capture_output=True,\n    text=True,\n)\n\nif convert_result.returncode != 0:\n    print(convert_result.stderr, file=sys.stderr)\n    sys.exit(convert_result.returncode)\n\n# Execute the converted script.\nexec_result = subprocess.run(\n    [sys.executable, \"/code/notebook.py\"],\n    capture_output=False,\n)\nsys.exit(exec_result.returncode)\n"

/-- `PythonRunner` (runners/python_runner.py). -/
def PythonRunner : Runner :=
  { prepare := fun job =>
      let code_files :=
        if job.runner_type = .PYTHON_NOTEBOOK then
          [("notebook.ipynb", job.code_content), ("run.py", _NOTEBOOK_WRAPPER)]
        else
          [("run.py", job.code_content)]
      { image := "phiacta-verify-runner-python:latest"
        command := ["python", "/code/run.py"]
        code_files := code_files
        data_files := none
        env_vars := runnerEnvVars job }
    parse_output := fun exit_code stdout stderr output_files =>
      if exit_code = 0 then
        { outputs := output_files, logs := stdout, errors := stderr,
          verification_level := .L2_EXECUTION_VERIFIED, success := true }
      else
        { outputs := output_files, logs := stdout, errors := stderr,
          verification_level := .L0_UNVERIFIED, success := false } }

/-- `RRunner` (runners/r_runner.py). -/
def RRunner : Runner :=
  { prepare := fun job =>
      if job.runner_type = .R_MARKDOWN then
        { image := "phiacta-verify-runner-r:latest"
          command := ["Rscript", "-e",
            "rmarkdown::render(\x27/code/input.Rmd\x27, output_dir=\x27/output/\x27)"]
          code_files := [("input.Rmd", job.code_content)]
          data_files := none
          env_vars := runnerEnvVars job }
      else
        { image := "phiacta-verify-runner-r:latest"
          command := ["Rscript", "/code/script.R"]
          code_files := [("script.R", job.code_content)]
          data_files := none
          env_vars := runnerEnvVars job }
    parse_output := fun exit_code stdout stderr output_files =>
      if exit_code = 0 then
        { outputs := output_files, logs := stdout, errors := stderr,
          verification_level := .L2_EXECUTION_VERIFIED, success := true }
      else
        { outputs := output_files, logs := stdout, errors := stderr,
          verification_level := .L0_UNVERIFIED, success := false } }

/-- `JuliaRunner` (runners/julia_runner.py). -/
def JuliaRunner : Runner :=
  { prepare := fun job =>
      { image := "phiacta-verify-runner-julia:latest"
        command := ["julia", "/code/script.jl"]
        code_files := [("script.jl", job.code_content)]
        data_files := none
        env_vars := runnerEnvVars job }
    parse_output := fun exit_code stdout stderr output_files =>
      if exit_code = 0 then
        { outputs := output_files, logs := stdout, errors := stderr,
          verification_level := .L2_EXECUTION_VERIFIED, success := true }
      else
        { outputs := output_files, logs := stdout, errors := stderr,
          verification_level := .L0_UNVERIFIED, success := false } }

/-- `LeanRunner` (runners/lean_runner.py): zero exit claims L6. -/
def LeanRunner : Runner :=
  { prepare := fun job =>
      { image := "phiacta-verify-runner-lean4:latest"
        command := ["lean", "/code/proof.lean"]
        code_files := [("proof.lean", job.code_content)]
        data_files := none
        env_vars := runnerEnvVars job }
    parse_output := fun exit_code stdout stderr output_files =>
      if exit_code = 0 then
        { outputs := output_files, logs := stdout, errors := stderr,
          verification_level := .L6_FORMALLY_PROVEN, success := true }
      else
        { outputs := output_files, logs := stdout, errors := stderr,
          verification_level := .L0_UNVERIFIED, success := false } }

/-- `SymbolicRunner` (runners/symbolic_runner.py). -/
def SymbolicRunner : Runner :=
  { prepare := fun job =>
      { image := "phiacta-verify-runner-python:latest"
        command := ["python", "/code/symbolic.py"]
        code_files := [("symbolic.py", job.code_content)]
        data_files := none
        env_vars := runnerEnvVars job }
    parse_output := fun exit_code stdout stderr output_files =>
      if exit_code = 0 then
        { outputs := output_files, logs := stdout, errors := stderr,
          verification_level := .L2_EXECUTION_VERIFIED, success := true }
      else
        { outputs := output_files, logs := stdout, errors := stderr,
          verification_level := .L0_UNVERIFIED, success := false } }

/-- `get_runner` (runners/__init__.py). -/
def get_runner : RunnerType → Runner
  | .PYTHON_SCRIPT => PythonRunner
  | .PYTHON_NOTEBOOK => PythonRunner
  | .R_SCRIPT => RRunner
  | .R_MARKDOWN => RRunner
  | .JULIA => JuliaRunner
  | .LEAN4 => LeanRunner
  | .SYMPY => SymbolicRunner
  | .SAGE => SymbolicRunner

/-! ## Worker steps 1-3: prepare, policy, sandbox invocation (worker.py) -/

/-- Steps 1-3 of `process_job`: select the runner, call `prepare`, build
the `SecurityPolicy` from the job's resource limits, and invoke
`sandbox.run`.  The call site passes `image`, `command`, `code_files`,
`data_files`, and `policy` — and does not pass `env_vars`, so the
sandbox receives its default `None` there. -/
def processJobSandboxSetup (job : VerificationJob) :
    Except String (List SandboxEvent × Except String SandboxCreate) :=
  let runner := get_runner job.runner_type
  let prepared := runner.prepare job
  (mkSecurityPolicy
      { memory_limit_mb := job.resource_limits.memory_mb
        timeout_seconds := job.resource_limits.timeout_seconds
        pids_limit := job.resource_limits.pids_limit
        tmpfs_size_mb := job.resource_limits.disk_mb }).map (fun policy =>
    ContainerSandbox.runSetup prepared.image prepared.command prepared.code_files
      prepared.data_files (some policy) none)

/-- C10: calling the sandbox `run` with an image outside the allow-list
fails with the source's `ValueError` before any temporary directory is
created and before any container is created: the event trace is empty,
so no state is left behind. -/
theorem c10_disallowed_image_rejected_early
    (image : String) (command : List String)
    (code_files : List (String × String))
    (data_files : Option (List (String × List Nat)))
    (policy : Option SecurityPolicy)
    (env_vars : Option (List (String × String)))
    (h : _ALLOWED_IMAGES.contains image = false) :
    ContainerSandbox.runSetup image command code_files data_files policy env_vars =
      ([], .error ("Image \x27" ++ image ++ "\x27 is not in the allowed image list. " ++
        "Allowed: [\x27phiacta-verify-runner-julia:latest\x27, " ++
        "\x27phiacta-verify-runner-lean4:latest\x27, " ++
        "\x27phiacta-verify-runner-python:latest\x27, " ++
        "\x27phiacta-verify-runner-r:latest\x27, " ++
        "\x27phiacta-verify-runner-symbolic:latest\x27]")) := by
  unfold ContainerSandbox.runSetup
  rw [if_pos h]

/-- C10 witness: a concrete disallowed image is rejected with an empty
event trace. -/
theorem c10_disallowed_image_rejected_early_witness :
    (ContainerSandbox.runSetup "ubuntu:latest" ["bash"] [] none none none).1 = [] :=
  by rw [c10_disallowed_image_rejected_early "ubuntu:latest" ["bash"] [] none none none
      (by decide)]

/-- C5: the runner extracts the job's `environment_spec["env"]` mapping
into `PreparedExecution.env_vars`, and the sandbox sanitizer would pass a
harmless variable through verbatim — but the worker's `sandbox.run` call
omits `env_vars`, so the container is created with an empty environment.
Evaluated at a job carrying `env = {"FOO": "bar"}`. -/
theorem c5_env_not_forwarded_to_container :
    ((get_runner RunnerType.PYTHON_SCRIPT).prepare
        { id := "j1", claim_id := "c1", runner_type := .PYTHON_SCRIPT,
          code_hash := "h", code_content := "print(1)",
          environment_spec := some { env := some [("FOO", "bar")] } }).env_vars =
      [("FOO", "bar")] ∧
    containerSafeEnv (some [("FOO", "bar")]) = [("FOO", "bar")] ∧
    (processJobSandboxSetup
        { id := "j1", claim_id := "c1", runner_type := .PYTHON_SCRIPT,
          code_hash := "h", code_content := "print(1)",
          environment_spec := some { env := some [("FOO", "bar")] } }).map
      (fun st => st.2.map (fun c => c.environment)) = .ok (.ok []) := by
  refine ⟨rfl, by decide, ?_⟩
  rfl

/-! ## Queue writes and the full `process_job` trace (worker.py, queue/redis_queue.py) -/

/-- A status or result write against the Redis key space. -/
inductive QueueWrite where
  | setStatus (job_id : String) (status : JobStatus)
  | setResult (job_id : String) (result : VerificationResult)

/-- `JobQueue.set_status`: one status key write. -/
def JobQueue.set_status (job_id : String) (status : JobStatus) : List QueueWrite :=
  [.setStatus job_id status]

/-- `JobQueue.store_result`: persists the result, then marks the job
COMPLETED (redis_queue.py lines 161-167). -/
def JobQueue.store_result (job_id : String) (result : VerificationResult) :
    List QueueWrite :=
  [.setResult job_id result] ++ JobQueue.set_status job_id .COMPLETED

/-- Python string slice `s[:n]` (by characters). -/
def strSlice (s : String) (n : Nat) : String := String.mk (s.data.take n)

/-- Worker step 7: construct the `VerificationResult`, then set its
signature by signing it.  `signFn` stands for `signer.sign`; `now` for
the `created_at` default factory. -/
def processJobResult
    (compare : ComparisonMethod → List Nat → List Nat → CompareOpts → ComparisonResult)
    (signFn : VerificationResult → String)
    (job : VerificationJob) (prepared_image : String)
    (sr : SandboxResult) (ro : RunnerOutput) (now : String) : VerificationResult :=
  let comps := processJobComparisons compare job.expected_outputs ro
  let verdict := processJobClassification sr ro comps
  let result0 : VerificationResult :=
    { job_id := job.id
      claim_id := job.claim_id
      verification_level := verdict.1
      passed := verdict.2
      code_hash := job.code_hash
      execution_time_seconds := sr.execution_time_seconds
      outputs_matched := if comps.isEmpty then none else some comps
      stdout := if sr.stdout = "" then none else some (strSlice sr.stdout 1000)
      stderr := if sr.stderr = "" then none else some (strSlice sr.stderr 1000)
      error_message := if verdict.2 = false then some ro.errors else none
      runner_image := prepared_image
      created_at := now }
  { result0 with signature := signFn result0 }

/-- The queue writes `process_job` performs on a run whose sandbox call
returned `sr`: status RUNNING first, then `store_result` at the end
(which also sets COMPLETED).  The runner output is computed from `sr` by
the job's runner, exactly as in worker.py. -/
def processJobTrace
    (compare : ComparisonMethod → List Nat → List Nat → CompareOpts → ComparisonResult)
    (signFn : VerificationResult → String)
    (job : VerificationJob) (sr : SandboxResult) (now : String) : List QueueWrite :=
  let runner := get_runner job.runner_type
  let prepared := runner.prepare job
  let ro := runner.parse_output sr.exit_code sr.stdout sr.stderr sr.output_files
  JobQueue.set_status job.id .RUNNING ++
    JobQueue.store_result job.id (processJobResult compare signFn job prepared.image sr ro now)

/-- The last status value written in a trace. -/
def lastStatus (ws : List QueueWrite) : Option JobStatus :=
  (ws.filterMap (fun w => match w with | .setStatus _ s => some s | _ => none)).getLast?

/-- The results stored in a trace. -/
def storedResults (ws : List QueueWrite) : List VerificationResult :=
  ws.filterMap (fun w => match w with | .setResult _ r => some r | _ => none)

/-- C3 counterexample: a job whose sandbox run timed out ends with stored
status COMPLETED, not TIMED_OUT — `process_job` never writes TIMED_OUT;
`store_result` unconditionally marks the job COMPLETED. -/
theorem c3_counterexample :
    lastStatus (processJobTrace
      (fun _ _ _ _ => { matched := true, method := .EXACT, score := .fin 1 })
      (fun _ => "sig")
      { id := "j1", claim_id := "c1", runner_type := .PYTHON_SCRIPT,
        code_hash := "h", code_content := "import time; time.sleep(600)" }
      { exit_code := -1, stdout := "", stderr := "", timed_out := true }
      "t0") = some JobStatus.COMPLETED ∧
    JobStatus.COMPLETED ≠ JobStatus.TIMED_OUT :=
  ⟨rfl, by decide⟩

/-- C3 (amended): on a timed-out sandbox run, the produced result record
carries level L0 with `passed = false` (the result type has no timed-out
field, so no flag is carried), and the job's stored status becomes
COMPLETED — the terminal success state written unconditionally by
`store_result` — never TIMED_OUT; in every `process_job` trace a stored
result coexists only with final status COMPLETED. -/
theorem c3_timeout_trace
    (compare : ComparisonMethod → List Nat → List Nat → CompareOpts → ComparisonResult)
    (signFn : VerificationResult → String)
    (job : VerificationJob) (sr : SandboxResult) (now : String)
    (h : sr.timed_out = true) :
    (∀ r ∈ storedResults (processJobTrace compare signFn job sr now),
      r.verification_level = .L0_UNVERIFIED ∧ r.passed = false) ∧
    lastStatus (processJobTrace compare signFn job sr now) = some .COMPLETED := by
  constructor
  · intro r hr
    simp [processJobTrace, storedResults, JobQueue.set_status, JobQueue.store_result] at hr
    subst hr
    simp [processJobResult, processJobClassification, h]
  · simp [processJobTrace, lastStatus, JobQueue.set_status, JobQueue.store_result]

/-- C3 witness: the amended theorem applied to a concrete timed-out run. -/
theorem c3_timeout_trace_witness :
    lastStatus (processJobTrace
      (fun _ _ _ _ => { matched := true, method := .EXACT, score := .fin 1 })
      (fun _ => "s")
      { id := "j2", claim_id := "c2", runner_type := .LEAN4,
        code_hash := "h2", code_content := "theorem foo : True := trivial" }
      { exit_code := -1, stdout := "", stderr := "", timed_out := true }
      "t1") = some .COMPLETED :=
  (c3_timeout_trace _ _ _ _ _ rfl).2

/-! ## Result signer (signing/ed25519.py) -/

/-- Lowercase hex digit, as used by `json.dumps` unicode escapes. -/
def hexDigit (n : Nat) : Char :=
  if n < 10 then Char.ofNat (48 + n) else Char.ofNat (87 + n)

/-- A `\uXXXX` escape for a 16-bit value. -/
def uEscape (n : Nat) : List Char :=
  ['\\', 'u', hexDigit (n / 4096 % 16), hexDigit (n / 256 % 16),
   hexDigit (n / 16 % 16), hexDigit (n % 16)]

/-- Per-character JSON string escaping as performed by `json.dumps` with
its default `ensure_ascii=True`: the two-character escapes, `\u00XX` for
remaining control characters, and `\uXXXX` (with surrogate pairs above
the BMP) for every non-ASCII character. -/
def jsonEscapeChar (c : Char) : List Char :=
  if c = '"' then ['\\', '"']
  else if c = '\\' then ['\\', '\\']
  else if c = '\n' then ['\\', 'n']
  else if c = '\r' then ['\\', 'r']
  else if c = '\t' then ['\\', 't']
  else if c.toNat = 8 then ['\\', 'b']
  else if c.toNat = 12 then ['\\', 'f']
  else if c.toNat < 32 ∨ c.toNat ≥ 127 then
    if c.toNat ≥ 65536 then
      uEscape (55296 + (c.toNat - 65536) / 1024) ++ uEscape (56320 + (c.toNat - 65536) % 1024)
    else uEscape c.toNat
  else [c]

/-- A JSON string literal with escapes. -/
def jsonStr (s : String) : String :=
  String.mk ('"' :: (s.data.map jsonEscapeChar).flatten ++ ['"'])

/-- The JSON value kinds appearing in the canonical payload. -/
inductive JsonVal where
  | jstr : String → JsonVal
  | jbool : Bool → JsonVal
  | jnum : PyFloat → JsonVal

/-- How `json.dumps` renders a Python float: the special tokens for
NaN/infinities; finite values by `repr` (rendered here through the exact
rational carried by the model — only determinism of the rendering
matters to the claims). -/
def renderPyFloat : PyFloat → String
  | .nan => "NaN"
  | .inf true => "Infinity"
  | .inf false => "-Infinity"
  | .fin q => toString q

def jsonDumpVal : JsonVal → String
  | .jstr s => jsonStr s
  | .jbool b => if b then "true" else "false"
  | .jnum x => renderPyFloat x

/-- Lexicographic code-point comparison of strings, as Python's `sorted`
uses on `str` keys. -/
def charListLt : List Char → List Char → Bool
  | [], [] => false
  | [], _ :: _ => true
  | _ :: _, [] => false
  | a :: as, b :: bs => if a < b then true else if b < a then false else charListLt as bs

/-- Stable insertion into a key-sorted association list. -/
def insertByKey (kv : String × JsonVal) :
    List (String × JsonVal) → List (String × JsonVal)
  | [] => [kv]
  | x :: xs =>
      if charListLt kv.1.data x.1.data then kv :: x :: xs else x :: insertByKey kv xs

/-- `sorted` by key (insertion sort; the canonical payload has seven
distinct keys, so stability is moot). -/
def sortKeys : List (String × JsonVal) → List (String × JsonVal)
  | [] => []
  | x :: xs => insertByKey x (sortKeys xs)

/-- `json.dumps(data, sort_keys=True, separators=(",", ":"))`. -/
def jsonDumps (d : List (String × JsonVal)) : String :=
  "\x7b" ++
    String.intercalate ","
      ((sortKeys d).map (fun kv => jsonStr kv.1 ++ ":" ++ jsonDumpVal kv.2)) ++
  "\x7d"

/-- The UTF-8 bytes of a string (`str.encode()`). -/
def strBytes (s : String) : List Nat := s.toUTF8.toList.map (fun b => b.toNat)

/-- The `data` dict built by `ResultSigner.canonical_payload`, in source
insertion order. -/
def canonicalData (r : VerificationResult) : List (String × JsonVal) :=
  [ ("job_id", .jstr r.job_id)
  , ("claim_id", .jstr r.claim_id)
  , ("code_hash", .jstr r.code_hash)
  , ("verification_level", .jstr r.verification_level.value)
  , ("passed", .jbool r.passed)
  , ("execution_time_seconds", .jnum r.execution_time_seconds)
  , ("created_at", .jstr r.created_at) ]

/-- `ResultSigner.canonical_payload`: deterministic JSON bytes of the
seven critical fields, sorted keys, no whitespace. -/
def ResultSigner.canonical_payload (r : VerificationResult) : List Nat :=
  strBytes (jsonDumps (canonicalData r))

/-- The external cryptographic primitives `ResultSigner` calls: Ed25519
sign/verify from the `cryptography` package and base64 encode/decode.
The base64 text is carried as its ASCII bytes.  `edVerify pub sig msg`
models `public_key.verify(sig, msg)` succeeding without raising. -/
structure Ed25519Impl where
  edSign : List Nat → List Nat → List Nat
  edVerify : List Nat → List Nat → List Nat → Bool
  b64encode : List Nat → List Nat
  b64decode : List Nat → List Nat

/-- `ResultSigner.sign`: base64 of the Ed25519 signature over the
canonical payload. -/
def ResultSigner.sign (impl : Ed25519Impl) (private_key : List Nat)
    (r : VerificationResult) : List Nat :=
  impl.b64encode (impl.edSign private_key (ResultSigner.canonical_payload r))

/-- `ResultSigner.verify`: recompute the canonical payload, decode the
signature, and check it against the public key. -/
def ResultSigner.verify (impl : Ed25519Impl) (public_key : List Nat)
    (r : VerificationResult) (signature : List Nat) : Bool :=
  impl.edVerify public_key (impl.b64decode signature)
    (ResultSigner.canonical_payload r)

/-- C2: for every result and every signer whose key pair and base64
primitives satisfy the Ed25519 correctness contract, `verify` accepts
the signature `sign` produces; and the signed bytes are the canonical
payload — JSON with the seven covered fields in sorted key order and no
whitespace. -/
theorem c2_sign_verify_roundtrip (impl : Ed25519Impl)
    (private_key public_key : List Nat) (r : VerificationResult)
    (hkeys : ∀ m, impl.edVerify public_key (impl.edSign private_key m) m = true)
    (hb64 : ∀ bs, impl.b64decode (impl.b64encode bs) = bs) :
    ResultSigner.verify impl public_key r
      (ResultSigner.sign impl private_key r) = true ∧
    sortKeys (canonicalData r) =
      [ ("claim_id", .jstr r.claim_id)
      , ("code_hash", .jstr r.code_hash)
      , ("created_at", .jstr r.created_at)
      , ("execution_time_seconds", .jnum r.execution_time_seconds)
      , ("job_id", .jstr r.job_id)
      , ("passed", .jbool r.passed)
      , ("verification_level", .jstr r.verification_level.value) ] := by
  constructor
  · unfold ResultSigner.verify ResultSigner.sign
    rw [hb64]
    exact hkeys _
  · rfl

/-- C2 witness: the round trip holds for a concrete result under a
concrete implementation satisfying the contract. -/
theorem c2_sign_verify_roundtrip_witness :
    ResultSigner.verify
      { edSign := fun k m => k ++ m, edVerify := fun pub sig m => sig == pub ++ m,
        b64encode := id, b64decode := id }
      []
      { job_id := "j1", claim_id := "c1", verification_level := .L2_EXECUTION_VERIFIED,
        passed := true, code_hash := "abc", execution_time_seconds := .fin 1,
        runner_image := "phiacta-verify-runner-python:latest" }
      (ResultSigner.sign
        { edSign := fun k m => k ++ m, edVerify := fun pub sig m => sig == pub ++ m,
          b64encode := id, b64decode := id }
        []
        { job_id := "j1", claim_id := "c1", verification_level := .L2_EXECUTION_VERIFIED,
          passed := true, code_hash := "abc", execution_time_seconds := .fin 1,
          runner_image := "phiacta-verify-runner-python:latest" }) = true :=
  (c2_sign_verify_roundtrip _ [] [] _ (fun m => by simp) (fun bs => rfl)).1

/-! ## Exact comparator (comparators/exact.py) -/

/-- The ASCII whitespace characters stripped by `str.rstrip()` (the
further Unicode space characters Python also strips do not occur in the
texts the claims quantify over). -/
def pyIsSpace (c : Char) : Bool :=
  c = ' ' || c = '\t' || c = '\n' || c = '\r' || c.toNat = 11 || c.toNat = 12

/-- `str.rstrip()` on a line's characters. -/
def pyRstrip (l : List Char) : List Char :=
  (l.reverse.dropWhile pyIsSpace).reverse

/-- `str.splitlines()` over `\n`, `\r\n`, and `\r` breaks (the exotic
Unicode breaks it also recognises do not occur in the texts the claims
quantify over).  A terminal break closes the last line without opening
an empty one. -/
def pySplitlinesAux (acc : List Char) : List Char → List (List Char)
  | [] => if acc.isEmpty then [] else [acc.reverse]
  | '\r' :: '\n' :: rest => acc.reverse :: pySplitlinesAux [] rest
  | '\r' :: rest => acc.reverse :: pySplitlinesAux [] rest
  | '\n' :: rest => acc.reverse :: pySplitlinesAux [] rest
  | c :: rest => pySplitlinesAux (c :: acc) rest

def pySplitlines (cs : List Char) : List (List Char) := pySplitlinesAux [] cs

/-- Pop whitespace-stripped lines that are empty from the end of the
list (`while stripped and stripped[-1] == "": stripped.pop()`). -/
def popTrailingEmpties (ls : List (List Char)) : List (List Char) :=
  (ls.reverse.dropWhile (·.isEmpty)).reverse

/-- `"\n".join(lines)`. -/
def joinNewline (ls : List (List Char)) : List Char :=
  (ls.intersperse ['\n']).flatten

/-- `_normalize_text` from comparators/exact.py: strip trailing
whitespace from each line, drop trailing empty lines, rejoin with
newlines. -/
def _normalize_text (text : List Char) : List Char :=
  joinNewline (popTrailingEmpties ((pySplitlines text).map pyRstrip))

/-- `ExactComparator.compare`: text mode when both payloads decode as
UTF-8 (`decodeUtf8` models `bytes.decode("utf-8")`, `none` a
`UnicodeDecodeError`), binary mode otherwise.  No keyword argument is
read. -/
def ExactComparator.compare (decodeUtf8 : List Nat → Option (List Char))
    (expected actual : List Nat) (_opts : CompareOpts) : ComparisonResult :=
  let base : List (String × PyVal) :=
    [ ("byte_length_expected", .int expected.length)
    , ("byte_length_actual", .int actual.length) ]
  match decodeUtf8 expected, decodeUtf8 actual with
  | some text_expected, some text_actual =>
      let matched := decide (_normalize_text text_expected = _normalize_text text_actual)
      { matched := matched, method := .EXACT,
        score := if matched then .fin 1 else .fin 0,
        details := base ++ [("mode", .str "text")] }
  | _, _ =>
      let matched := decide (expected = actual)
      { matched := matched, method := .EXACT,
        score := if matched then .fin 1 else .fin 0,
        details := base ++ [("mode", .str "binary")] }

/-! ### Normalization lemmas for C8 -/

/-- Whitespace that may trail an individual line without introducing a
new line break. -/
def isLineWS (c : Char) : Bool := c = ' ' || c = '\t'

/-- `dropWhile` skips a whole block whose elements all satisfy the
predicate. -/
theorem dropWhile_append_all {α} (p : α → Bool) (u v : List α)
    (h : ∀ c ∈ u, p c = true) : (u ++ v).dropWhile p = v.dropWhile p := by
  induction u with
  | nil => rfl
  | cons a u ih =>
      simp only [List.cons_append, List.dropWhile_cons, h a (List.mem_cons_self a u)]
      exact ih (fun c hc => h c (List.mem_cons_of_mem a hc))

/-- Appending line-trailing whitespace does not change `rstrip`. -/
theorem pyRstrip_append_ws (l w : List Char)
    (h : ∀ c ∈ w, isLineWS c = true) : pyRstrip (l ++ w) = pyRstrip l := by
  unfold pyRstrip
  rw [List.reverse_append]
  rw [dropWhile_append_all pyIsSpace w.reverse l.reverse]
  intro c hc
  have hcw : c ∈ w := List.mem_reverse.mp hc
  have := h c hcw
  simp only [isLineWS, Bool.or_eq_true, decide_eq_true_eq] at this
  rcases this with h1 | h1 <;> simp [pyIsSpace, h1]

/-- Stripping a line-by-line whitespace augmentation recovers the core. -/
theorem map_pyRstrip_zipWith_ws (core ws : List (List Char))
    (hlen : ws.length = core.length)
    (hws : ∀ w ∈ ws, ∀ c ∈ w, isLineWS c = true) :
    (List.zipWith (· ++ ·) core ws).map pyRstrip = core.map pyRstrip := by
  induction core generalizing ws with
  | nil => cases ws <;> simp
  | cons l core ih =>
      cases ws with
      | nil => simp at hlen
      | cons w ws =>
          simp only [List.zipWith_cons_cons, List.map_cons, List.cons.injEq]
          constructor
          · exact pyRstrip_append_ws l w (hws w (List.mem_cons_self w ws))
          · exact ih ws (by simpa using hlen)
              (fun w2 hw2 => hws w2 (List.mem_cons_of_mem w hw2))

/-- Trailing empty lines are dropped by `popTrailingEmpties`. -/
theorem popTrailingEmpties_append_nils (x : List (List Char)) (n : Nat) :
    popTrailingEmpties (x ++ List.replicate n []) = popTrailingEmpties x := by
  unfold popTrailingEmpties
  rw [List.reverse_append, List.reverse_replicate]
  rw [dropWhile_append_all _ (List.replicate n []) x.reverse]
  intro c hc
  have := List.eq_of_mem_replicate hc
  simp [this]

/-- A line list obtained from `core` by appending whitespace to each line
and empty lines at the end. -/
def ExtendsByTrailingWS (core lines : List (List Char)) : Prop :=
  ∃ ws n, ws.length = core.length ∧
    (∀ w ∈ ws, ∀ c ∈ w, isLineWS c = true) ∧
    lines = List.zipWith (· ++ ·) core ws ++ List.replicate n []

/-- Two texts differ only in trailing whitespace on individual lines or
in trailing empty lines: both line lists extend a common core. -/
def TrailingWSOnlyDiff (s t : List Char) : Prop :=
  ∃ core, ExtendsByTrailingWS core (pySplitlines s) ∧
    ExtendsByTrailingWS core (pySplitlines t)

theorem normalize_of_extends (core : List (List Char)) (s : List Char)
    (h : ExtendsByTrailingWS core (pySplitlines s)) :
    _normalize_text s = joinNewline (popTrailingEmpties (core.map pyRstrip)) := by
  obtain ⟨ws, n, hlen, hws, heq⟩ := h
  unfold _normalize_text
  rw [heq, List.map_append, map_pyRstrip_zipWith_ws core ws hlen hws]
  have hrep : (List.replicate n ([] : List Char)).map pyRstrip = List.replicate n [] := by
    rw [List.map_replicate]; rfl
  rw [hrep, popTrailingEmpties_append_nils]

/-- C8: the EXACT comparator matches any byte string against itself with
score 1.0 (in text mode and in the binary fallback alike), and matches
any two UTF-8 texts that differ only in trailing whitespace on
individual lines or in trailing empty lines. -/
theorem c8_exact_comparator
    (decodeUtf8 : List Nat → Option (List Char)) (opts : CompareOpts) :
    (∀ x, (ExactComparator.compare decodeUtf8 x x opts).matched = true ∧
      (ExactComparator.compare decodeUtf8 x x opts).score = .fin 1) ∧
    (∀ xs ys s t, decodeUtf8 xs = some s → decodeUtf8 ys = some t →
      TrailingWSOnlyDiff s t →
      (ExactComparator.compare decodeUtf8 xs ys opts).matched = true) := by
  constructor
  · intro x
    unfold ExactComparator.compare
    cases h : decodeUtf8 x <;> simp
  · intro xs ys s t hxs hys hdiff
    obtain ⟨core, hs, ht⟩ := hdiff
    have hnorm : _normalize_text s = _normalize_text t := by
      rw [normalize_of_extends core s hs, normalize_of_extends core t ht]
    unfold ExactComparator.compare
    rw [hxs, hys]
    simp [hnorm]

/-- C8 witness: `"a "` and `"a"` (one trailing space) match under a
concrete decoder. -/
theorem c8_exact_comparator_witness :
    (ExactComparator.compare (fun bs => some (bs.map Char.ofNat))
      [97, 32] [97] {}).matched = true := by
  refine (c8_exact_comparator (fun bs => some (bs.map Char.ofNat)) {}).2
    [97, 32] [97] ['a', ' '] ['a'] (by decide) (by decide) ?_
  refine ⟨[['a']], ⟨[[' ']], 0, rfl, ?_, by decide⟩, ⟨[[]], 0, rfl, ?_, by decide⟩⟩
  · intro w hw c hc
    simp only [List.mem_singleton] at hw
    subst hw
    simp only [List.mem_singleton] at hc
    subst hc
    rfl
  · intro w hw c hc
    simp only [List.mem_singleton] at hw
    subst hw
    simp at hc

/-! ## Numerical comparator (comparators/numerical.py) -/

/-- `_values_close`: `(absolute_error, relative_error, is_close)` with
NaN-equals-NaN, exact-equality fast path (covering ±inf and zero), and
the numpy-style `|e-a| <= atol + rtol*|e|` test. -/
def _values_close (expected actual rtol atol : PyFloat) :
    PyFloat × PyFloat × Bool :=
  if expected.isnan && actual.isnan then (.fin 0, .fin 0, true)
  else if expected.isnan || actual.isnan then (.inf true, .inf true, false)
  else if PyFloat.peq expected actual then (.fin 0, .fin 0, true)
  else if expected.isinf || actual.isinf then (.inf true, .inf true, false)
  else
    let abs_err := (PyFloat.sub expected actual).pabs
    let rel_err := if PyFloat.peq expected (.fin 0) then abs_err
                   else PyFloat.div abs_err expected.pabs
    let ok := PyFloat.ple abs_err (PyFloat.add atol (PyFloat.mul rtol expected.pabs))
    (abs_err, rel_err, ok)

/-- `_format_value`: JSON-friendly rendering of a float. -/
def _format_value : PyFloat → PyVal
  | .nan => .str "NaN"
  | .inf true => .str "Infinity"
  | .inf false => .str "-Infinity"
  | .fin q => .num (.fin q)

/-- A paired mismatch record appended inside the comparison loop. -/
def mismatchEntry (i : Nat) (exp_val act_val abs_err rel_err : PyFloat) : PyVal :=
  .dict [ ("index", .int i)
        , ("expected", _format_value exp_val)
        , ("actual", _format_value act_val)
        , ("absolute_error", .num abs_err)
        , ("relative_error", .num rel_err) ]

/-- The default tolerances (`kwargs.get` with `_DEFAULT_RTOL`,
`_DEFAULT_ATOL`). -/
def optRtol (opts : CompareOpts) : PyFloat := opts.rtol.getD (.fin (1 / 10 ^ 10))

def optAtol (opts : CompareOpts) : PyFloat := opts.atol.getD (.fin (1 / 10 ^ 12))

/-- One iteration of the pairwise comparison loop: update the running
maxima, append a mismatch record when the pair is not close. -/
def numericalStep (ev av : List PyFloat) (rtol atol : PyFloat)
    (st : List PyVal × PyFloat × PyFloat) (i : Nat) :
    List PyVal × PyFloat × PyFloat :=
  let exp_val := ev.getD i .nan
  let act_val := av.getD i .nan
  let r := _values_close exp_val act_val rtol atol
  ((if r.2.2 then st.1 else st.1 ++ [mismatchEntry i exp_val act_val r.1 r.2.1]),
   PyFloat.pymax st.2.1 r.1, PyFloat.pymax st.2.2 r.2.1)

/-- The pairwise comparison loop over indices `0..pairs-1` (list indexing
is modelled with a default that is never reached, as every index is in
range). -/
def numericalLoop (ev av : List PyFloat) (rtol atol : PyFloat) (pairs : Nat) :
    List PyVal × PyFloat × PyFloat :=
  (List.range pairs).foldl (numericalStep ev av rtol atol) ([], .fin 0, .fin 0)

/-- The unpaired-mismatch record appended for each excess index when
the sequences differ in length. -/
def unpairedEntry (ev av : List PyFloat) (i : Nat) : PyVal :=
  .dict [ ("index", .int i)
        , ("expected", if i < ev.length then _format_value (ev.getD i .nan)
                       else .str "<missing>")
        , ("actual", if i < av.length then _format_value (av.getD i .nan)
                     else .str "<missing>")
        , ("absolute_error", .num (.inf true))
        , ("relative_error", .num (.inf true))
        , ("note", .str ("value only present in " ++
            (if av.length < ev.length then "expected" else "actual"))) ]

/-- The mismatch list: the loop's records, plus one unpaired record per
excess index when the lengths differ. -/
def numericalMismatches (ev av : List PyFloat) (rtol atol : PyFloat) : List PyVal :=
  if ev.length != av.length then
    (numericalLoop ev av rtol atol (min ev.length av.length)).1 ++
      (List.range' (min ev.length av.length)
        (max ev.length av.length - min ev.length av.length)).map (unpairedEntry ev av)
  else (numericalLoop ev av rtol atol (min ev.length av.length)).1

/-- The reported maximum absolute error (forced to +inf on a length
mismatch). -/
def numericalMaxAbs (ev av : List PyFloat) (rtol atol : PyFloat) : PyFloat :=
  if ev.length != av.length then .inf true
  else (numericalLoop ev av rtol atol (min ev.length av.length)).2.1

/-- The reported maximum relative error (forced to +inf on a length
mismatch). -/
def numericalMaxRel (ev av : List PyFloat) (rtol atol : PyFloat) : PyFloat :=
  if ev.length != av.length then .inf true
  else (numericalLoop ev av rtol atol (min ev.length av.length)).2.2

/-- `score = max(0.0, min(1.0, 1.0 - max_rel_err))`, zero when the
maximum relative error is not finite. -/
def numericalScore (max_rel_err : PyFloat) : PyFloat :=
  if max_rel_err.isinf || max_rel_err.isnan then .fin 0
  else PyFloat.pymax (.fin 0) (PyFloat.pymin (.fin 1) (PyFloat.sub (.fin 1) max_rel_err))

/-- `NumericalComparator.compare` from the extracted number sequences
down (comparators/numerical.py lines 59-141). -/
def NumericalComparator.compareValues (ev av : List PyFloat)
    (opts : CompareOpts) : ComparisonResult :=
  if max ev.length av.length = 0 then
    { matched := true, method := .NUMERICAL_TOLERANCE, score := .fin 1,
      details := [ ("max_relative_error", .num (.fin 0))
                 , ("max_absolute_error", .num (.fin 0))
                 , ("values_compared", .int 0)
                 , ("mismatches", .list []) ] }
  else
    { matched := (numericalMismatches ev av (optRtol opts) (optAtol opts)).isEmpty,
      method := .NUMERICAL_TOLERANCE,
      score := numericalScore (numericalMaxRel ev av (optRtol opts) (optAtol opts)),
      details := [ ("max_relative_error",
                     .num (numericalMaxRel ev av (optRtol opts) (optAtol opts)))
                 , ("max_absolute_error",
                     .num (numericalMaxAbs ev av (optRtol opts) (optAtol opts)))
                 , ("values_compared", .int (max ev.length av.length))
                 , ("mismatches",
                     .list (numericalMismatches ev av (optRtol opts) (optAtol opts))) ] }

/-- `NumericalComparator.compare` on byte payloads; `parse` models
`_parse_numbers` (the JSON-then-regex extraction front end, which reads
no keyword arguments). -/
def NumericalComparator.compare (parse : List Nat → List PyFloat)
    (expected actual : List Nat) (opts : CompareOpts) : ComparisonResult :=
  NumericalComparator.compareValues (parse expected) (parse actual) opts

/-! ### Lemmas for C9 -/

/-- The relative error at a paired index. -/
def relErrAt (ev av : List PyFloat) (rtol atol : PyFloat) (i : Nat) : PyFloat :=
  (_values_close (ev.getD i .nan) (av.getD i .nan) rtol atol).2.1

/-- Relative errors are never NaN: every branch of `_values_close`
returns 0, +inf, or a finite quotient with non-zero denominator. -/
theorem valuesClose_rel_shape (a b rt at' : PyFloat) :
    (_values_close a b rt at').2.1 = .inf true ∨
      ∃ q, (_values_close a b rt at').2.1 = .fin q := by
  cases a with
  | nan => cases b <;> simp [_values_close, PyFloat.isnan]
  | inf s =>
      cases b with
      | nan => simp [_values_close, PyFloat.isnan]
      | inf t =>
          by_cases hst : s = t
          · simp [_values_close, PyFloat.isnan, PyFloat.peq, hst]
          · simp [_values_close, PyFloat.isnan, PyFloat.isinf, PyFloat.peq, hst]
      | fin y => simp [_values_close, PyFloat.isnan, PyFloat.isinf, PyFloat.peq]
  | fin x =>
      cases b with
      | nan => simp [_values_close, PyFloat.isnan]
      | inf t => simp [_values_close, PyFloat.isnan, PyFloat.isinf, PyFloat.peq]
      | fin y =>
          by_cases hxy : x = y
          · simp [_values_close, PyFloat.isnan, PyFloat.peq, hxy]
          · by_cases hx0 : x = 0
            · right
              simp only [_values_close, PyFloat.isnan, PyFloat.isinf, PyFloat.peq, hxy, hx0,
                PyFloat.sub, PyFloat.add, PyFloat.neg, PyFloat.pabs, Bool.and_self,
                Bool.or_self, decide_eq_true_eq, Bool.false_eq_true, if_false, neg_zero, zero_add, if_true]
              rw [if_neg (show ¬(0 = y) from fun h0 => hxy (hx0.trans h0))]
              exact ⟨|(-y)|, rfl⟩
            · right
              refine ⟨|x + -y| / |x|, ?_⟩
              simp [_values_close, PyFloat.isnan, PyFloat.isinf, PyFloat.peq, hxy, hx0,
                PyFloat.sub, PyFloat.add, PyFloat.neg, PyFloat.pabs, PyFloat.div,
                abs_eq_zero]

/-- Projection of the loop state: the running maximum relative error is
a fold of `pymax` over the per-index relative errors. -/
theorem foldl_numericalStep_rel (ev av : List PyFloat) (rtol atol : PyFloat)
    (l : List Nat) (init : List PyVal × PyFloat × PyFloat) :
    (l.foldl (numericalStep ev av rtol atol) init).2.2 =
      l.foldl (fun m i => PyFloat.pymax m (relErrAt ev av rtol atol i)) init.2.2 := by
  induction l generalizing init with
  | nil => rfl
  | cons a t ih =>
      rw [List.foldl_cons, List.foldl_cons, ih]
      rfl

/-- `pymax` keeps +inf once reached. -/
theorem foldl_pymax_inftrue (l : List PyFloat) :
    l.foldl PyFloat.pymax (.inf true) = .inf true := by
  induction l with
  | nil => rfl
  | cons a t ih =>
      rw [List.foldl_cons]
      have h : PyFloat.pymax (.inf true) a = .inf true := by
        cases a <;> rfl
      rw [h]; exact ih

/-- Folding `pymax` from a finite start over NaN-free errors reaches
+inf exactly when some error is +inf. -/
theorem foldl_pymax_fin_inf (l : List PyFloat) :
    ∀ s : PyFloat, (∀ e ∈ l, e = .inf true ∨ ∃ q, e = .fin q) →
      (∃ e ∈ l, e.isfinite = false) → (∃ c, s = .fin c) →
      l.foldl PyFloat.pymax s = .inf true := by
  induction l with
  | nil =>
      intro s _ hmem _
      simp at hmem
  | cons a t ih =>
      intro s hshape hmem hs
      obtain ⟨c, rfl⟩ := hs
      rcases hshape a (List.mem_cons_self a t) with ha | ⟨q, ha⟩
      · subst ha
        rw [List.foldl_cons]
        have h : PyFloat.pymax (.fin c) (.inf true) = .inf true := rfl
        rw [h]
        exact foldl_pymax_inftrue t
      · subst ha
        have hpm : ∃ c2, PyFloat.pymax (.fin c) (.fin q) = .fin c2 := by
          unfold PyFloat.pymax
          split
          · exact ⟨q, rfl⟩
          · exact ⟨c, rfl⟩
        obtain ⟨c2, hc2⟩ := hpm
        rw [List.foldl_cons, hc2]
        refine ih _ (fun e he => hshape e (List.mem_cons_of_mem _ he)) ?_ ⟨c2, rfl⟩
        obtain ⟨e, he, hef⟩ := hmem
        rcases List.mem_cons.mp he with rfl | he2
        · simp [PyFloat.isfinite] at hef
        · exact ⟨e, he2, hef⟩

/-- Folding `pymax` from a finite start over finite errors stays
finite. -/
theorem foldl_pymax_fin_finite (l : List PyFloat) :
    ∀ s : PyFloat, (∀ e ∈ l, e.isfinite = true) → (∃ c, s = .fin c) →
      ∃ r, l.foldl PyFloat.pymax s = .fin r := by
  induction l with
  | nil =>
      intro s _ hs
      obtain ⟨c, rfl⟩ := hs
      exact ⟨c, rfl⟩
  | cons a t ih =>
      intro s h hs
      obtain ⟨c, rfl⟩ := hs
      have ha := h a (List.mem_cons_self a t)
      cases a with
      | nan => simp [PyFloat.isfinite] at ha
      | inf s2 => simp [PyFloat.isfinite] at ha
      | fin q =>
          have hpm : ∃ c2, PyFloat.pymax (.fin c) (.fin q) = .fin c2 := by
            unfold PyFloat.pymax
            split
            · exact ⟨q, rfl⟩
            · exact ⟨c, rfl⟩
          obtain ⟨c2, hc2⟩ := hpm
          rw [List.foldl_cons, hc2]
          exact ih _ (fun e he => h e (List.mem_cons_of_mem _ he)) ⟨c2, rfl⟩

/-- C9: for the NUMERICAL_TOLERANCE comparator on the extracted number
sequences — a length mismatch is itself a failure (no match, both
reported max errors +inf, one unpaired-mismatch record per excess index,
score 0); two empty extractions are a trivial match with score 1; and on
equal non-zero lengths the score is `1 - max relative error` clamped to
`[0, 1]`, and 0 whenever any per-index error is non-finite. -/
theorem c9_numerical_comparator (ev av : List PyFloat) (opts : CompareOpts) :
    (ev.length ≠ av.length →
      (NumericalComparator.compareValues ev av opts).matched = false ∧
      dictGet (NumericalComparator.compareValues ev av opts).details
        "max_relative_error" = some (.num (.inf true)) ∧
      dictGet (NumericalComparator.compareValues ev av opts).details
        "max_absolute_error" = some (.num (.inf true)) ∧
      (∀ i, min ev.length av.length ≤ i → i < max ev.length av.length →
        ∃ ms, dictGet (NumericalComparator.compareValues ev av opts).details
            "mismatches" = some (.list ms) ∧ unpairedEntry ev av i ∈ ms) ∧
      (NumericalComparator.compareValues ev av opts).score = .fin 0) ∧
    (ev = [] → av = [] →
      (NumericalComparator.compareValues ev av opts).matched = true ∧
      (NumericalComparator.compareValues ev av opts).score = .fin 1) ∧
    (ev.length = av.length → ev ≠ [] →
      ((∃ e ∈ (List.range ev.length).map (relErrAt ev av (optRtol opts) (optAtol opts)),
          e.isfinite = false) →
        (NumericalComparator.compareValues ev av opts).score = .fin 0) ∧
      ((∀ e ∈ (List.range ev.length).map (relErrAt ev av (optRtol opts) (optAtol opts)),
          e.isfinite = true) →
        (NumericalComparator.compareValues ev av opts).score =
          PyFloat.pymax (.fin 0) (PyFloat.pymin (.fin 1) (PyFloat.sub (.fin 1)
            (((List.range ev.length).map
                (relErrAt ev av (optRtol opts) (optAtol opts))).foldl
              PyFloat.pymax (.fin 0)))))) := by
  refine ⟨fun h => ?_, fun he ha => ?_, fun hlen hne => ?_⟩
  · have hc : ¬ (max ev.length av.length = 0) := by omega
    have hlm : (ev.length != av.length) = true := by simpa [bne_iff_ne] using h
    refine ⟨?_, ?_, ?_, ?_, ?_⟩
    · simp only [NumericalComparator.compareValues]
      rw [if_neg hc]
      apply ne_nil_isEmpty_false
      simp only [numericalMismatches, hlm, if_pos]
      intro hcontra
      have h2 := (List.append_eq_nil.mp hcontra).2
      rw [List.map_eq_nil_iff, List.range'_eq_nil] at h2
      omega
    · simp only [NumericalComparator.compareValues]
      rw [if_neg hc]
      simp only [numericalMaxRel, hlm, if_pos]
      simp [dictGet]
    · simp only [NumericalComparator.compareValues]
      rw [if_neg hc]
      simp only [numericalMaxAbs, hlm, if_pos]
      simp [dictGet]
    · intro i hi1 hi2
      refine ⟨numericalMismatches ev av (optRtol opts) (optAtol opts), ?_, ?_⟩
      · simp only [NumericalComparator.compareValues]
        rw [if_neg hc]
        simp [dictGet]
      · simp only [numericalMismatches, hlm, if_pos]
        apply List.mem_append_right
        apply List.mem_map_of_mem
        rw [List.mem_range'_1]
        omega
    · simp only [NumericalComparator.compareValues]
      rw [if_neg hc]
      simp only [numericalMaxRel, hlm, if_pos]
      simp [numericalScore, PyFloat.isinf]
  · subst he; subst ha
    exact ⟨rfl, rfl⟩
  · have hc : ¬ (max ev.length av.length = 0) := by
      have : ev.length ≠ 0 := by simpa [List.length_eq_zero] using hne
      omega
    have hlm : (ev.length != av.length) = false := by simp [bne_iff_ne, hlen]
    have hmin : min ev.length av.length = ev.length := by omega
    have hrel : numericalMaxRel ev av (optRtol opts) (optAtol opts) =
        ((List.range ev.length).map
          (relErrAt ev av (optRtol opts) (optAtol opts))).foldl PyFloat.pymax (.fin 0) := by
      rw [numericalMaxRel, if_neg (by simp [hlm]), numericalLoop, hmin,
        foldl_numericalStep_rel, List.foldl_map]
    have hshape : ∀ e ∈ (List.range ev.length).map
        (relErrAt ev av (optRtol opts) (optAtol opts)),
        e = .inf true ∨ ∃ q, e = .fin q := by
      intro e he
      obtain ⟨i, _, rfl⟩ := List.mem_map.mp he
      exact valuesClose_rel_shape _ _ _ _
    constructor
    · intro hmem
      have hfold : ((List.range ev.length).map
          (relErrAt ev av (optRtol opts) (optAtol opts))).foldl
            PyFloat.pymax (.fin 0) = .inf true :=
        foldl_pymax_fin_inf _ _ hshape hmem ⟨0, rfl⟩
      simp only [NumericalComparator.compareValues]
      rw [if_neg hc]
      simp [numericalScore, hrel, hfold, PyFloat.isinf]
    · intro hfin
      obtain ⟨r, hr⟩ := foldl_pymax_fin_finite _ (PyFloat.fin 0) hfin ⟨0, rfl⟩
      simp only [NumericalComparator.compareValues]
      rw [if_neg hc]
      simp only [numericalScore, hrel, hr, PyFloat.isinf, PyFloat.isnan,
        Bool.or_self, Bool.false_eq_true, if_false]

/-- C9 witness: a one-element sequence against an empty one takes the
length-mismatch branch with no match and score 0. -/
theorem c9_numerical_comparator_witness :
    (NumericalComparator.compareValues [.fin 1] [] {}).matched = false ∧
    (NumericalComparator.compareValues [.fin 1] [] {}).score = .fin 0 := by
  have h := (c9_numerical_comparator [.fin 1] [] {}).1 (by decide)
  exact ⟨h.1, h.2.2.2.2⟩

/-! ## Statistical comparator (comparators/statistical.py) -/

/-- Stable insertion sort with Python's `<` on floats (the inputs are
finite after parsing, so `sorted` is totally determined by `plt`). -/
def insertFloat (x : PyFloat) : List PyFloat → List PyFloat
  | [] => [x]
  | y :: ys => if PyFloat.plt x y then x :: y :: ys else y :: insertFloat x ys

def pySortFloat : List PyFloat → List PyFloat
  | [] => []
  | x :: xs => insertFloat x (pySortFloat xs)

/-- Python `min(values)` over a non-empty list (the empty case is
guarded by the callers' emptiness checks). -/
def pyListMin : List PyFloat → PyFloat
  | [] => .nan
  | x :: xs => xs.foldl PyFloat.pymin x

/-- Python `max(values)` over a non-empty list. -/
def pyListMax : List PyFloat → PyFloat
  | [] => .nan
  | x :: xs => xs.foldl PyFloat.pymax x

/-- `math.fsum` (exact summation — matched exactly by the rational
model). -/
def pyFsum (l : List PyFloat) : PyFloat := l.foldl PyFloat.add (.fin 0)

/-- `_summary`: mean, population standard deviation, min, max, median.
`msqrt` models `math.sqrt`. -/
def _summary (msqrt : PyFloat → PyFloat) (values : List PyFloat) :
    List (String × PyFloat) :=
  let n := values.length
  let mean := PyFloat.div (pyFsum values) (.fin n)
  let min_val := pyListMin values
  let max_val := pyListMax values
  let variance := PyFloat.div
    (pyFsum (values.map (fun x => PyFloat.mul (PyFloat.sub x mean) (PyFloat.sub x mean))))
    (.fin n)
  let std := msqrt variance
  let sorted_vals := pySortFloat values
  let median :=
    if n % 2 = 1 then sorted_vals.getD (n / 2) .nan
    else PyFloat.div
      (PyFloat.add (sorted_vals.getD (n / 2 - 1) .nan) (sorted_vals.getD (n / 2) .nan))
      (.fin 2)
  [("mean", mean), ("std", std), ("min", min_val), ("max", max_val), ("median", median)]

/-- `_normalised_deviation`: `|e-a| / max(|e|, |a|, 1)`, zero on exact
equality. -/
def _normalised_deviation (expected actual : PyFloat) : PyFloat :=
  if PyFloat.peq expected actual then .fin 0
  else
    PyFloat.div ((PyFloat.sub expected actual).pabs)
      (PyFloat.pymax (PyFloat.pymax expected.pabs actual.pabs) (.fin 1))

/-- One update of the KS running maximum after the merge pointers have
advanced to `ia2`, `ib2`. -/
def ksAdvance (sa sb : List PyFloat) (max_diff : PyFloat) (ia2 ib2 : Nat) : PyFloat :=
  let cdf_a := PyFloat.div (.fin ia2) (.fin sa.length)
  let cdf_b := PyFloat.div (.fin ib2) (.fin sb.length)
  let diff := (PyFloat.sub cdf_a cdf_b).pabs
  if PyFloat.plt max_diff diff then diff else max_diff

/-- The merge loop of `_ks_statistic`. -/
def ksLoop (sa sb : List PyFloat) (ia ib : Nat) (max_diff : PyFloat) : PyFloat :=
  if h : ia < sa.length ∧ ib < sb.length then
    let a := sa.getD ia .nan
    let b := sb.getD ib .nan
    if PyFloat.plt a b then
      ksLoop sa sb (ia + 1) ib (ksAdvance sa sb max_diff (ia + 1) ib)
    else if PyFloat.plt b a then
      ksLoop sa sb ia (ib + 1) (ksAdvance sa sb max_diff ia (ib + 1))
    else
      ksLoop sa sb (ia + 1) (ib + 1) (ksAdvance sa sb max_diff (ia + 1) (ib + 1))
  else max_diff
  termination_by (sa.length - ia) + (sb.length - ib)
  decreasing_by
    · omega
    · omega
    · omega

/-- `_ks_statistic`: two-sample KS statistic by a linear merge over the
two sorted samples. -/
def _ks_statistic (a b : List PyFloat) : PyFloat :=
  ksLoop (pySortFloat a) (pySortFloat b) 0 0 (.fin 0)

/-- The five summary statistic names, in source order. -/
def statNames : List String := ["mean", "std", "min", "max", "median"]

/-- `StatisticalComparator.compare`; `parseFin` models
`_parse_finite_numbers` (which drops NaN and infinities and reads no
keyword arguments), `msqrt` models `math.sqrt`. -/
def StatisticalComparator.compare (parseFin : List Nat → List PyFloat)
    (msqrt : PyFloat → PyFloat) (expected actual : List Nat)
    (opts : CompareOpts) : ComparisonResult :=
  let significance := opts.significance_level.getD (.fin (5 / 100))
  let expected_values := parseFin expected
  let actual_values := parseFin actual
  if expected_values.isEmpty && actual_values.isEmpty then
    { matched := true, method := .STATISTICAL, score := .fin 1,
      details := [("note", .str "both outputs produced no finite numbers")] }
  else if expected_values.isEmpty || actual_values.isEmpty then
    { matched := false, method := .STATISTICAL, score := .fin 0,
      details := [ ("note", .str "one output produced no finite numbers")
                 , ("expected_count", .int expected_values.length)
                 , ("actual_count", .int actual_values.length) ] }
  else
    let exp_stats := _summary msqrt expected_values
    let act_stats := _summary msqrt actual_values
    let devs := statNames.map (fun name =>
      (name, _normalised_deviation ((dictGet exp_stats name).getD .nan)
        ((dictGet act_stats name).getD .nan)))
    let max_deviation := (devs.map (·.2)).foldl PyFloat.pymax (.fin 0)
    let ks_stat := _ks_statistic expected_values actual_values
    let matched := PyFloat.ple max_deviation significance
    let score :=
      if max_deviation.isinf || max_deviation.isnan then PyFloat.fin 0
      else PyFloat.pymax (.fin 0) (PyFloat.pymin (.fin 1)
        (PyFloat.sub (.fin 1) max_deviation))
    { matched := matched, method := .STATISTICAL, score := score,
      details :=
        [ ("count_expected", .int expected_values.length)
        , ("count_actual", .int actual_values.length) ] ++
        (statNames.map (fun name =>
          [ (name ++ "_expected", PyVal.num ((dictGet exp_stats name).getD .nan))
          , (name ++ "_actual", PyVal.num ((dictGet act_stats name).getD .nan)) ])).flatten ++
        [ ("deviations", .dict (devs.map (fun kv => (kv.1, PyVal.num kv.2))))
        , ("max_deviation", .num max_deviation)
        , ("ks_statistic", .num ks_stat) ] }

/-! ## Image comparator (comparators/image.py) -/

/-- `_byte_similarity`: `(bytes_total, bytes_matching)` — the longer
length, and the number of agreeing positions in the overlapping region
(the source's chunked loop counts exactly these). -/
def _byte_similarity (a b : List Nat) : Nat × Nat :=
  let bytes_total := max a.length b.length
  if bytes_total = 0 then (0, 0)
  else (bytes_total, (a.zip b).countP (fun p => p.1 = p.2))

/-- `ImageComparator.compare`; `sha256hex` models
`hashlib.sha256(...).hexdigest()`. -/
def ImageComparator.compare (sha256hex : List Nat → String)
    (expected actual : List Nat) (opts : CompareOpts) : ComparisonResult :=
  let threshold := opts.threshold.getD (.fin (95 / 100))
  let hash_expected := sha256hex expected
  let hash_actual := sha256hex actual
  let base : List (String × PyVal) :=
    [ ("hash_expected", .str hash_expected)
    , ("hash_actual", .str hash_actual)
    , ("size_expected", .int expected.length)
    , ("size_actual", .int actual.length) ]
  if hash_expected = hash_actual then
    { matched := true, method := .PERCEPTUAL_HASH, score := .fin 1,
      details := base ++
        [ ("bytes_total", .int expected.length)
        , ("bytes_matching", .int expected.length)
        , ("similarity", .num (.fin 1)) ] }
  else
    let bt := (_byte_similarity expected actual).1
    let bm := (_byte_similarity expected actual).2
    let similarity := if 0 < bt then PyFloat.fin ((bm : ℚ) / (bt : ℚ)) else .fin 0
    { matched := PyFloat.ple threshold similarity, method := .PERCEPTUAL_HASH,
      score := similarity,
      details := base ++
        [ ("bytes_total", .int bt)
        , ("bytes_matching", .int bm)
        , ("similarity", .num similarity) ] }

/-- C7: no comparator's result depends on the `tolerance` keyword the
worker forwards — the EXACT comparator reads no keyword, the numerical
one reads only `rtol`/`atol`, the statistical one only
`significance_level`, the image one only `threshold` — so each result is
identical to the one computed with the option absent. -/
theorem c7_tolerance_option_ignored
    (decodeUtf8 : List Nat → Option (List Char))
    (parse parseFin : List Nat → List PyFloat)
    (msqrt : PyFloat → PyFloat) (sha256hex : List Nat → String)
    (expected actual : List Nat) (opts : CompareOpts) (t : Option PyFloat) :
    ExactComparator.compare decodeUtf8 expected actual { opts with tolerance := t } =
      ExactComparator.compare decodeUtf8 expected actual opts ∧
    NumericalComparator.compare parse expected actual { opts with tolerance := t } =
      NumericalComparator.compare parse expected actual opts ∧
    StatisticalComparator.compare parseFin msqrt expected actual { opts with tolerance := t } =
      StatisticalComparator.compare parseFin msqrt expected actual opts ∧
    ImageComparator.compare sha256hex expected actual { opts with tolerance := t } =
      ImageComparator.compare sha256hex expected actual opts := by
  obtain ⟨tl, rt, at_, sg, th⟩ := opts
  exact ⟨rfl, rfl, rfl, rfl⟩
